import Mathlib

/-!
Shallow embedding of the configuration-resolution and project-layout core of
the `create-mrn-app` scaffolding tool (files `src/types/config.ts`,
`src/prompts/index.ts`, `src/generators/index.ts`,
`src/generators/backends/index.ts`, `src/generators/backends/nextjs-api.ts`,
`src/utils/git.ts`), together with theorems settling the frozen claims about
its specification.
-/

set_option autoImplicit false

namespace MrnStack

/-! ## Enumerations (from `src/types/config.ts`) -/

inductive Framework
  | next | react | vue | astro
  deriving DecidableEq

inductive BackendFramework
  | none | nextjsBuiltin | express | fastify | nestjs | hono | elysia | convex
  deriving DecidableEq

inductive Database
  | supabase | convex | neon | sqlite | turso | planetscale | mongodb | none
  deriving DecidableEq

inductive ORM
  | prisma | drizzle | none
  deriving DecidableEq

inductive HonoRuntime
  | node | bun
  deriving DecidableEq

inductive Auth
  | nextAuth | clerk | supabaseAuth | betterAuth | none
  deriving DecidableEq

inductive Styling
  | tailwind | tailwindShadcn | cssModules | vanilla
  deriving DecidableEq

inductive PackageManager
  | npm | pnpm | bun
  deriving DecidableEq

/-- The string value a `PackageManager` enum member denotes in the source
(used by template interpolation such as `${config.packageManager}`). -/
def PackageManager.toValue : PackageManager → String
  | .npm => "npm"
  | .pnpm => "pnpm"
  | .bun => "bun"

structure Extras where
  typescript : Bool
  eslint : Bool
  prettier : Bool
  testing : Bool
  playwright : Bool
  docker : Bool
  deriving DecidableEq

/-- `ProjectConfig` from `src/types/config.ts`. -/
structure ProjectConfig where
  projectName : String
  framework : Framework
  backend : BackendFramework
  database : Database
  orm : ORM
  auth : Auth
  styling : Styling
  packageManager : PackageManager
  runtime : Option HonoRuntime
  extras : Extras
  deriving DecidableEq

/-! ## Compatibility tables (from `src/types/config.ts`) -/

def FRAMEWORK_BACKEND_COMPAT : Framework → List BackendFramework
  | .next => [.none, .nextjsBuiltin, .express, .fastify, .nestjs, .hono, .elysia, .convex]
  | .react => [.none, .express, .fastify, .nestjs, .hono, .elysia, .convex]
  | .vue => [.none, .express, .fastify, .nestjs, .hono, .elysia]
  | .astro => [.none, .express, .fastify, .nestjs, .hono, .elysia]

def DATABASE_ORM_COMPAT : Database → List ORM
  | .mongodb => [.prisma]
  | .supabase => [.prisma, .drizzle]
  | .neon => [.prisma, .drizzle]
  | .sqlite => [.prisma, .drizzle]
  | .turso => [.prisma, .drizzle]
  | .planetscale => [.prisma, .drizzle]
  | .convex => [.none]
  | .none => [.none]

def BUN_ONLY_BACKENDS : List BackendFramework := [.elysia]

def RUNTIME_SELECTABLE_BACKENDS : List BackendFramework := [.hono]

def SKIP_DB_BACKENDS : List BackendFramework := [.convex, .none]

/-! ## Layout classification (from `src/generators/backends/index.ts`) -/

/-- `requiresSeparatePackage` from `src/generators/backends/index.ts`. -/
def requiresSeparatePackage (framework : BackendFramework) : Bool :=
  ([.express, .fastify, .hono, .elysia, .nestjs] : List BackendFramework).contains framework

/-- `integratesWithFrontend` from `src/generators/backends/index.ts`. -/
def integratesWithFrontend (framework : BackendFramework) : Bool :=
  ([.nextjsBuiltin, .convex] : List BackendFramework).contains framework

inductive LayoutDecision
  | none | integrated | separate
  deriving DecidableEq

/-- The layout decision made by `generate` in `src/generators/index.ts`:
`isMonorepo = requiresSeparatePackage(backend)` selects the monorepo branch,
otherwise `isIntegratedBackend = integratesWithFrontend(backend)` selects the
integrated single-package variant, otherwise a plain single package. -/
def classify (backend : BackendFramework) : LayoutDecision :=
  if requiresSeparatePackage backend then .separate
  else if integratesWithFrontend backend then .integrated
  else .none

/-- Comparison definition following the words of the spec (§4.2 and testable
property list): express, fastify, hono, elysia, nestjs classify as separate;
nextjs-builtin and convex as integrated; every other backend as none. -/
def classifySpec (backend : BackendFramework) : LayoutDecision :=
  match backend with
  | .express | .fastify | .hono | .elysia | .nestjs => .separate
  | .nextjsBuiltin | .convex => .integrated
  | .none => .none

/-! ## Association lists and the JS object-spread merge

`generateSingleProject` (src/generators/index.ts, lines 104-124) merges the
backend generator declarations into the frontend `package.json` with
`{ ...packageJson.dependencies, ...backendDeps }` (and likewise for
`devDependencies` and `scripts`).  A JSON object field is modelled as an
association list; JS spread keeps the first object's key positions (with the
second object's value where the key occurs in both) and appends the second
object's remaining keys. -/

def lookupKey (k : String) : List (String × String) → Option String
  | [] => Option.none
  | (k', v) :: rest => if k = k' then some v else lookupKey k rest

/-- `{ ...a, ...b }` on string-keyed records. -/
def mergeRecords (a b : List (String × String)) : List (String × String) :=
  (a.map (fun kv =>
    match lookupKey kv.1 b with
    | some v => (kv.1, v)
    | Option.none => kv))
  ++ b.filter (fun kv => (lookupKey kv.1 a).isNone)

/-- The slice of a `package.json` manifest the core manipulates. -/
structure Manifest where
  name : String
  version : String
  scripts : List (String × String)
  dependencies : List (String × String)
  devDependencies : List (String × String)
  deriving DecidableEq

/-- The manifest update performed by `generateSingleProject` in the
integrated-backend case (src/generators/index.ts lines 104-124). -/
def mergeBackendIntoManifest (pj : Manifest)
    (backendDeps backendDevDeps backendScripts : List (String × String)) : Manifest :=
  { pj with
    dependencies := mergeRecords pj.dependencies backendDeps
    devDependencies := mergeRecords pj.devDependencies backendDevDeps
    scripts := mergeRecords pj.scripts backendScripts }

/-! ## Lookup lemmas for the merge -/

theorem lookupKey_append (l₁ l₂ : List (String × String)) (k : String) :
    lookupKey k (l₁ ++ l₂) =
      match lookupKey k l₁ with
      | some v => some v
      | Option.none => lookupKey k l₂ := by
  induction l₁ with
  | nil => simp [lookupKey]
  | cons hd tl ih =>
    obtain ⟨k', v'⟩ := hd
    by_cases h : k = k' <;> simp [lookupKey, h, ih]

theorem lookupKey_mapOverride (a b : List (String × String)) (k : String) :
    lookupKey k (a.map (fun kv =>
        match lookupKey kv.1 b with
        | some v => (kv.1, v)
        | Option.none => kv)) =
      match lookupKey k a with
      | some v => some ((lookupKey k b).getD v)
      | Option.none => Option.none := by
  induction a with
  | nil => simp [lookupKey]
  | cons hd tl ih =>
    obtain ⟨k', v'⟩ := hd
    by_cases h : k = k'
    · subst h
      cases hb : lookupKey k b <;> simp [lookupKey, hb]
    · cases hb : lookupKey k' b <;> simp [lookupKey, h, ih, hb]

theorem lookupKey_filterNew (a b : List (String × String)) (k : String) :
    lookupKey k (b.filter (fun kv => (lookupKey kv.1 a).isNone)) =
      if lookupKey k a = Option.none then lookupKey k b else Option.none := by
  induction b with
  | nil => simp [lookupKey]
  | cons hd tl ih =>
    obtain ⟨k', v'⟩ := hd
    by_cases h : k = k'
    · subst h
      cases ha : lookupKey k a <;> simp [lookupKey, List.filter, ha, ih]
    · cases ha : lookupKey k' a <;> simp [lookupKey, List.filter, ha, ih, h]

/-- A key declared by the backend ends up in the merged record with the
backend's value (this is the right bias of `{ ...a, ...b }`). -/
theorem lookupKey_mergeRecords_of_backend (a b : List (String × String))
    (k v : String) (hb : lookupKey k b = some v) :
    lookupKey k (mergeRecords a b) = some v := by
  unfold mergeRecords
  rw [lookupKey_append, lookupKey_mapOverride, lookupKey_filterNew]
  cases ha : lookupKey k a <;> simp [ha, hb]

/-- A key the backend does not declare keeps its frontend value. -/
theorem lookupKey_mergeRecords_of_frontend (a b : List (String × String))
    (k : String) (hb : lookupKey k b = Option.none) :
    lookupKey k (mergeRecords a b) = lookupKey k a := by
  unfold mergeRecords
  rw [lookupKey_append, lookupKey_mapOverride, lookupKey_filterNew]
  cases ha : lookupKey k a <;> simp [ha, hb]

/-! ## Monorepo root manifest (from `createRootPackageJson`, `src/generators/index.ts`) -/

structure RootManifest where
  name : String
  version : String
  privateFlag : Bool
  workspaces : List String
  scripts : List (String × String)
  devDependencies : List (String × String)
  deriving DecidableEq

/-- `createRootPackageJson` from `src/generators/index.ts` (lines 190-217).
`${config.packageManager}` interpolates the package-manager string value. -/
def createRootPackageJson (config : ProjectConfig) : RootManifest :=
  let pm := config.packageManager.toValue
  { name := config.projectName
    version := "0.1.0"
    privateFlag := true
    workspaces := ["packages/*"]
    scripts := [
      ("dev", "concurrently \"pnpm --filter frontend dev\" \"pnpm --filter backend dev\""),
      ("dev:frontend", pm ++ " --filter frontend dev"),
      ("dev:backend", pm ++ " --filter backend dev"),
      ("build", pm ++ " --filter frontend build && " ++ pm ++ " --filter backend build"),
      ("build:frontend", pm ++ " --filter frontend build"),
      ("build:backend", pm ++ " --filter backend build"),
      ("lint", pm ++ " --filter \"*\" lint"),
      ("test", pm ++ " --filter \"*\" test")]
    devDependencies := [("concurrently", "^9.1.0")] }

/-- The sub-package directories `generateMonorepoProject` creates with
`fs.ensureDir` before generating code into them (`src/generators/index.ts`
lines 140-146). -/
def monorepoSubdirs (projectPath : String) : List String :=
  [projectPath ++ "/packages/frontend", projectPath ++ "/packages/backend"]

/-! ## Version-control initialization (from `src/utils/git.ts`)

`initGit` awaits `git init`, `git add -A`, `git commit` in sequence inside a
`try { ... } catch {}` whose catch block is empty.  Each subprocess outcome is
modelled as an `Except` value; the sequential `await`s are the `Except` bind
(a failure aborts the remaining commands), and the catch block maps any error
to a normal return. -/

def initGit (gitInit gitAdd gitCommit : Except String Unit) : Except String Unit :=
  match gitInit.bind (fun _ => gitAdd.bind (fun _ => gitCommit)) with
  | .ok _ => .ok ()
  | .error _ => .ok ()

/-! ## NextJS built-in API backend generator declarations
(from `NextJSAPIGenerator` in `src/generators/backends/nextjs-api.ts`) -/

/-- `NextJSAPIGenerator.getDependencies`. -/
def nextjsApiDependencies (config : ProjectConfig) : List (String × String) :=
  [("zod", "^3.23.0")]
  ++ (if config.orm = ORM.prisma then [("@prisma/client", "^5.22.0")] else [])
  ++ (if config.orm = ORM.drizzle then
        [("drizzle-orm", "^0.36.0")]
        ++ (if config.database = Database.sqlite ∨ config.database = Database.turso then
              [("better-sqlite3", "^11.6.0")] else [])
        ++ (if config.database = Database.neon ∨ config.database = Database.supabase then
              [("@neondatabase/serverless", "^0.10.0")] else [])
        ++ (if config.database = Database.planetscale then
              [("@planetscale/database", "^1.19.0")] else [])
      else [])

/-- `NextJSAPIGenerator.getDevDependencies`. -/
def nextjsApiDevDependencies (config : ProjectConfig) : List (String × String) :=
  (if config.orm = ORM.prisma then [("prisma", "^5.22.0")] else [])
  ++ (if config.orm = ORM.drizzle then
        [("drizzle-kit", "^0.28.0")]
        ++ (if config.database = Database.sqlite ∨ config.database = Database.turso then
              [("@types/better-sqlite3", "^7.6.0")] else [])
      else [])

/-- `NextJSAPIGenerator.getScripts`. -/
def nextjsApiScripts (config : ProjectConfig) : List (String × String) :=
  (if config.orm = ORM.prisma then
    [("db:generate", "prisma generate"), ("db:push", "prisma db push"),
     ("db:migrate", "prisma migrate dev"), ("db:studio", "prisma studio")] else [])
  ++ (if config.orm = ORM.drizzle then
    [("db:generate", "drizzle-kit generate"), ("db:push", "drizzle-kit push"),
     ("db:migrate", "drizzle-kit migrate"), ("db:studio", "drizzle-kit studio")] else [])

/-! ## Configuration resolution (from `runPrompts`, `src/prompts/index.ts`)

`runPrompts` resolves each field from the CLI-supplied option when present
and otherwise prompts interactively.  The embedding makes the interactive
answers explicit (`PromptAnswers` stands for whatever each prompt would
return) and records, in source order, which prompts fire and which notices
(`p.log.info` / `p.log.warn`) are emitted.  Cancellation paths are not
modelled: an answer is always available.  The result of the external
`checkBunInstalled()` probe is the `bunInstalled` parameter. -/

structure PromptOptions where
  projectName : Option String
  framework : Option Framework
  backend : Option BackendFramework
  database : Option Database
  orm : Option ORM
  auth : Option Auth
  styling : Option Styling
  packageManager : Option PackageManager
  runtime : Option HonoRuntime
  deriving DecidableEq

structure PromptAnswers where
  projectName : String
  framework : Framework
  backend : BackendFramework
  database : Database
  orm : ORM
  auth : Auth
  styling : Styling
  packageManager : PackageManager
  runtime : HonoRuntime
  extras : List String
  deriving DecidableEq

inductive PromptTag
  | projectName | framework | backend | runtime | database | orm | auth | styling
  | packageManager | extras
  deriving DecidableEq

inductive Notice
  /-- `p.log.warn`: Elysia requires Bun but Bun is not installed. -/
  | bunRequiredWarn
  /-- `p.log.info`: how to install Bun. -/
  | bunInstallHint
  /-- `p.log.info`: "Using ⟨orm⟩ for ⟨database⟩" on ORM auto-selection. -/
  | ormAuto (orm : ORM) (db : Database)
  /-- `p.log.info`: Convex includes its own database. -/
  | convexSkipDb
  /-- `p.log.info`: "Using ⟨pm⟩ as package manager (required by ⟨backend⟩)". -/
  | pmOverride (pm : PackageManager) (backend : BackendFramework)
  deriving DecidableEq

/-- `options.projectName || prompt(...)`: JS `||` treats the empty string as
falsy, so an empty supplied name also prompts. -/
def resolveNameOpt (o : Option String) (a : String) : String :=
  match o with
  | some s => if s = "" then a else s
  | Option.none => a

def namePrompted (o : Option String) : Bool :=
  match o with
  | some s => s = ""
  | Option.none => true

def resolveBackend (opts : PromptOptions) (ans : PromptAnswers) : BackendFramework :=
  opts.backend.getD ans.backend

/-- The `runtime` variable: set only inside the
`RUNTIME_SELECTABLE_BACKENDS.includes(backend)` branch. -/
def resolveRuntime (opts : PromptOptions) (ans : PromptAnswers) : Option HonoRuntime :=
  if resolveBackend opts ans ∈ RUNTIME_SELECTABLE_BACKENDS then
    some (opts.runtime.getD ans.runtime)
  else Option.none

/-- The `forcePackageManager` variable after both forcing steps: set to
`"bun"` when the backend is Bun-only, or when a runtime-selectable backend
resolves its runtime to `bun`. -/
def forcedPackageManager (opts : PromptOptions) (ans : PromptAnswers) : Option PackageManager :=
  if resolveBackend opts ans ∈ BUN_ONLY_BACKENDS then some PackageManager.bun
  else if resolveRuntime opts ans = some HonoRuntime.bun then some PackageManager.bun
  else Option.none

/-- The `database` variable: initialized `"none"` and reassigned only when
the backend is not in the skip-database set. -/
def resolveDatabase (opts : PromptOptions) (ans : PromptAnswers) : Database :=
  if resolveBackend opts ans ∈ SKIP_DB_BACKENDS then Database.none
  else opts.database.getD ans.database

/-- The `orm` variable: `"none"` unless a non-"none" database was resolved;
then prompted when the database's allow-list has more than one entry, and
otherwise auto-assigned to the first (only) entry. -/
def resolveORM (opts : PromptOptions) (ans : PromptAnswers) : ORM :=
  if resolveBackend opts ans ∈ SKIP_DB_BACKENDS then ORM.none
  else
    let db := opts.database.getD ans.database
    if db = Database.none then ORM.none
    else
      let availableORMs := DATABASE_ORM_COMPAT db
      if availableORMs.length > 1 then opts.orm.getD ans.orm
      else availableORMs.headD ORM.none

/-- The `p.log.warn` / `p.log.info` pair emitted when a Bun-only backend is
chosen but Bun is not installed. -/
def bunNotices (opts : PromptOptions) (ans : PromptAnswers) (bunInstalled : Bool) : List Notice :=
  if resolveBackend opts ans ∈ BUN_ONLY_BACKENDS ∧ bunInstalled = false then
    [Notice.bunRequiredWarn, Notice.bunInstallHint]
  else []

/-- The notice emitted inside the database/ORM block: either the
ORM auto-selection info or the Convex skip-database info. -/
def dbOrmNotices (opts : PromptOptions) (ans : PromptAnswers) : List Notice :=
  if resolveBackend opts ans ∈ SKIP_DB_BACKENDS then
    if resolveBackend opts ans = BackendFramework.convex then [Notice.convexSkipDb] else []
  else
    let db := opts.database.getD ans.database
    if db = Database.none then []
    else
      let availableORMs := DATABASE_ORM_COMPAT db
      if availableORMs.length > 1 then []
      else
        let o := availableORMs.headD ORM.none
        if o = ORM.none then [] else [Notice.ormAuto o db]

/-- The notice emitted when the package manager is forced. -/
def pmNotices (opts : PromptOptions) (ans : PromptAnswers) : List Notice :=
  match forcedPackageManager opts ans with
  | some pm => [Notice.pmOverride pm (resolveBackend opts ans)]
  | Option.none => []

/-- The `packageManager` field: the forced value when one exists, otherwise
the CLI option, otherwise the prompted answer. -/
def resolvePackageManager (opts : PromptOptions) (ans : PromptAnswers) : PackageManager :=
  match forcedPackageManager opts ans with
  | some pm => pm
  | Option.none => opts.packageManager.getD ans.packageManager

/-- The extras multiselect (always prompted; no CLI option exists for it).
`prettier` mirrors the `eslint` choice. -/
def resolveExtras (ans : PromptAnswers) : Extras :=
  { typescript := ans.extras.contains "typescript"
    eslint := ans.extras.contains "eslint"
    prettier := ans.extras.contains "eslint"
    testing := ans.extras.contains "testing"
    playwright := ans.extras.contains "playwright"
    docker := ans.extras.contains "docker" }

/-- The prompts that fire, in source order. -/
def promptTags (opts : PromptOptions) (ans : PromptAnswers) : List PromptTag :=
  (if namePrompted opts.projectName then [PromptTag.projectName] else [])
  ++ (if opts.framework.isNone then [PromptTag.framework] else [])
  ++ (if opts.backend.isNone then [PromptTag.backend] else [])
  ++ (if resolveBackend opts ans ∈ RUNTIME_SELECTABLE_BACKENDS ∧ opts.runtime = Option.none then
        [PromptTag.runtime] else [])
  ++ (if resolveBackend opts ans ∉ SKIP_DB_BACKENDS ∧ opts.database = Option.none then
        [PromptTag.database] else [])
  ++ (if resolveBackend opts ans ∉ SKIP_DB_BACKENDS
         ∧ opts.database.getD ans.database ≠ Database.none
         ∧ (DATABASE_ORM_COMPAT (opts.database.getD ans.database)).length > 1
         ∧ opts.orm = Option.none then
        [PromptTag.orm] else [])
  ++ (if opts.auth.isNone then [PromptTag.auth] else [])
  ++ (if opts.styling.isNone then [PromptTag.styling] else [])
  ++ (if (forcedPackageManager opts ans).isNone ∧ opts.packageManager = Option.none then
        [PromptTag.packageManager] else [])
  ++ [PromptTag.extras]

structure PromptResult where
  config : ProjectConfig
  notices : List Notice
  prompts : List PromptTag
  deriving DecidableEq

/-- Functionalization of `runPrompts` (`src/prompts/index.ts` lines 203-446):
the returned `ProjectConfig`, the notices emitted (in order), and the prompts
that fired (in order). -/
def runPrompts (opts : PromptOptions) (ans : PromptAnswers) (bunInstalled : Bool) : PromptResult :=
  { config :=
      { projectName := resolveNameOpt opts.projectName ans.projectName
        framework := opts.framework.getD ans.framework
        backend := resolveBackend opts ans
        database := resolveDatabase opts ans
        orm := resolveORM opts ans
        auth := opts.auth.getD ans.auth
        styling := opts.styling.getD ans.styling
        packageManager := resolvePackageManager opts ans
        runtime := resolveRuntime opts ans
        extras := resolveExtras ans }
    notices := bunNotices opts ans bunInstalled ++ dbOrmNotices opts ans ++ pmNotices opts ans
    prompts := promptTags opts ans }

/-- Recognizes the package-manager override notice. -/
def isPmOverrideNotice : Notice → Bool
  | .pmOverride _ _ => true
  | _ => false

/-! ## Shared helper lemmas and sample inputs -/

theorem mem_ite_singleton {α : Type} (c : Prop) [Decidable c] (x t : α) :
    x ∈ (if c then [t] else ([] : List α)) ↔ c ∧ x = t := by
  split <;> simp_all

/-- A concrete configuration on the separate-layout branch (react + express
+ mongodb/prisma). -/
def sampleSeparateConfig : ProjectConfig :=
  { projectName := "my-app"
    framework := .react
    backend := .express
    database := .mongodb
    orm := .prisma
    auth := .none
    styling := .tailwind
    packageManager := .npm
    runtime := Option.none
    extras := { typescript := true, eslint := true, prettier := true,
                testing := false, playwright := false, docker := false } }

/-- Frontend manifest with a single dependency, matching the first merge
example of the spec. -/
def fmSingle : Manifest :=
  { name := "app", version := "0.1.0", scripts := []
    dependencies := [("a", "1")], devDependencies := [] }

/-- Frontend manifest with two dependencies, matching the second merge
example of the spec. -/
def fmPair : Manifest :=
  { name := "app", version := "0.1.0", scripts := []
    dependencies := [("a", "1"), ("b", "2")], devDependencies := [] }

/-! ## Claim theorems -/

/-- C1: the single-package integrated-backend merge is right-biased for all
three mapping-valued fields: a key the backend declares ends up with the
backend value (whether or not the frontend also declares it), and a key the
backend does not declare keeps its frontend value. -/
theorem manifest_merge_right_biased (pj : Manifest)
    (bd bdd bs : List (String × String)) (k v : String) :
    (lookupKey k bd = some v →
       lookupKey k (mergeBackendIntoManifest pj bd bdd bs).dependencies = some v) ∧
    (lookupKey k bd = Option.none →
       lookupKey k (mergeBackendIntoManifest pj bd bdd bs).dependencies
         = lookupKey k pj.dependencies) ∧
    (lookupKey k bdd = some v →
       lookupKey k (mergeBackendIntoManifest pj bd bdd bs).devDependencies = some v) ∧
    (lookupKey k bdd = Option.none →
       lookupKey k (mergeBackendIntoManifest pj bd bdd bs).devDependencies
         = lookupKey k pj.devDependencies) ∧
    (lookupKey k bs = some v →
       lookupKey k (mergeBackendIntoManifest pj bd bdd bs).scripts = some v) ∧
    (lookupKey k bs = Option.none →
       lookupKey k (mergeBackendIntoManifest pj bd bdd bs).scripts
         = lookupKey k pj.scripts) := by
  refine ⟨?_, ?_, ?_, ?_, ?_, ?_⟩ <;> intro h
  · exact lookupKey_mergeRecords_of_backend pj.dependencies bd k v h
  · exact lookupKey_mergeRecords_of_frontend pj.dependencies bd k h
  · exact lookupKey_mergeRecords_of_backend pj.devDependencies bdd k v h
  · exact lookupKey_mergeRecords_of_frontend pj.devDependencies bdd k h
  · exact lookupKey_mergeRecords_of_backend pj.scripts bs k v h
  · exact lookupKey_mergeRecords_of_frontend pj.scripts bs k h

/-- Witness for C1, on the spec's own merge examples:
`merge({a:1},{a:2})` yields `a=2`; `merge({a:1,b:2},{c:3})` keeps `a=1`
and gains `c=3`. -/
theorem manifest_merge_right_biased_witness :
    lookupKey "a" (mergeBackendIntoManifest fmSingle [("a", "2")] [] []).dependencies
      = some "2" ∧
    lookupKey "a" (mergeBackendIntoManifest fmPair [("c", "3")] [] []).dependencies
      = some "1" ∧
    lookupKey "c" (mergeBackendIntoManifest fmPair [("c", "3")] [] []).dependencies
      = some "3" := by
  refine ⟨(manifest_merge_right_biased fmSingle [("a", "2")] [] [] "a" "2").1 (by decide),
    ?_, (manifest_merge_right_biased fmPair [("c", "3")] [] [] "c" "3").1 (by decide)⟩
  have h := (manifest_merge_right_biased fmPair [("c", "3")] [] [] "a" "1").2.1 (by decide)
  rw [h]; decide

/-- C2: on every (framework, backend) pair allowed by the compatibility
table, the layout classification is a pure function of the backend alone and
equals the three-way split stated by the spec (the five server frameworks are
separate, nextjs-builtin and convex are integrated, none is none). -/
theorem classify_matches_spec (f : Framework) (b : BackendFramework)
    (_h : b ∈ FRAMEWORK_BACKEND_COMPAT f) : classify b = classifySpec b := by
  cases b <;> rfl

/-- Witness for C2 at (next, express). -/
theorem classify_matches_spec_witness :
    BackendFramework.express ∈ FRAMEWORK_BACKEND_COMPAT Framework.next ∧
    classify BackendFramework.express = classifySpec BackendFramework.express :=
  ⟨by decide, classify_matches_spec Framework.next BackendFramework.express (by decide)⟩

/-- C6: for every configuration on the separate (monorepo) branch, the root
manifest's scripts mapping has exactly the eight fixed keys, in order. -/
theorem rootManifest_script_keys (config : ProjectConfig)
    (_h : requiresSeparatePackage config.backend = true) :
    (createRootPackageJson config).scripts.map Prod.fst =
      ["dev", "dev:frontend", "dev:backend", "build", "build:frontend",
       "build:backend", "lint", "test"] := rfl

/-- Witness for C6 at a concrete separate-layout configuration. -/
theorem rootManifest_script_keys_witness :
    requiresSeparatePackage sampleSeparateConfig.backend = true ∧
    (createRootPackageJson sampleSeparateConfig).scripts.map Prod.fst =
      ["dev", "dev:frontend", "dev:backend", "build", "build:frontend",
       "build:backend", "lint", "test"] :=
  ⟨by decide, rootManifest_script_keys sampleSeparateConfig (by decide)⟩

/-- C7 counterexample: the root manifest's `workspaces` field is the single
glob `packages/*`, not the two-element list of sub-package directories the
claim states. -/
theorem rootManifest_workspaces_counterexample :
    (createRootPackageJson sampleSeparateConfig).workspaces = ["packages/*"] ∧
    (createRootPackageJson sampleSeparateConfig).workspaces ≠
      ["packages/frontend", "packages/backend"] := by
  exact ⟨rfl, by decide⟩

/-- C7 (amended): the root manifest's `workspaces` field is always the
one-element glob list `["packages/*"]`, and the monorepo generator creates
exactly the two sub-package directories `packages/frontend` and
`packages/backend` under that glob. -/
theorem rootManifest_workspaces_glob (config : ProjectConfig) :
    (createRootPackageJson config).workspaces = ["packages/*"] ∧
    ∀ projectPath, monorepoSubdirs projectPath =
      [projectPath ++ "/packages/frontend", projectPath ++ "/packages/backend"] :=
  ⟨rfl, fun _ => rfl⟩

/-- C8: the "requires separate package" and "integrates with frontend"
backend sets are disjoint. -/
theorem separate_integrated_disjoint :
    ∀ b : BackendFramework,
      ¬(requiresSeparatePackage b = true ∧ integratesWithFrontend b = true) := by
  intro b
  cases b <;> decide

/-- C9: version-control initialization is best-effort: whatever the three
underlying git commands do, `initGit` returns success. -/
theorem initGit_never_fails (gitInit gitAdd gitCommit : Except String Unit) :
    initGit gitInit gitAdd gitCommit = Except.ok () := by
  cases gitInit <;> cases gitAdd <;> cases gitCommit <;> rfl

/-- C10: in the root monorepo manifest the `dev` script is the same fixed
string for every package-manager choice (it always uses pnpm workspace
filters), while `dev:frontend`, `dev:backend`, `build`, `lint` and `test`
substitute the resolved package manager. -/
theorem rootManifest_dev_script_fixed (config : ProjectConfig) :
    lookupKey "dev" (createRootPackageJson config).scripts =
      some "concurrently \"pnpm --filter frontend dev\" \"pnpm --filter backend dev\"" ∧
    lookupKey "dev:frontend" (createRootPackageJson config).scripts =
      some (config.packageManager.toValue ++ " --filter frontend dev") ∧
    lookupKey "dev:backend" (createRootPackageJson config).scripts =
      some (config.packageManager.toValue ++ " --filter backend dev") ∧
    lookupKey "build" (createRootPackageJson config).scripts =
      some (config.packageManager.toValue ++ " --filter frontend build && "
        ++ config.packageManager.toValue ++ " --filter backend build") ∧
    lookupKey "lint" (createRootPackageJson config).scripts =
      some (config.packageManager.toValue ++ " --filter \"*\" lint") ∧
    lookupKey "test" (createRootPackageJson config).scripts =
      some (config.packageManager.toValue ++ " --filter \"*\" test") :=
  ⟨rfl, rfl, rfl, rfl, rfl, rfl⟩

/-! ## Resolver lemmas and the resolver claims -/

theorem countP_pmOverride_bunNotices (opts : PromptOptions) (ans : PromptAnswers)
    (bunInstalled : Bool) :
    (bunNotices opts ans bunInstalled).countP isPmOverrideNotice = 0 := by
  unfold bunNotices
  split <;> decide

theorem countP_pmOverride_dbOrmNotices (opts : PromptOptions) (ans : PromptAnswers) :
    (dbOrmNotices opts ans).countP isPmOverrideNotice = 0 := by
  unfold dbOrmNotices
  repeat' split <;> simp [isPmOverrideNotice]
  intro a _ _ _ ha
  subst ha
  rfl

/-- Default interactive answers used by concrete witnesses. -/
def ansDefault : PromptAnswers :=
  { projectName := "my-app", framework := .react, backend := .none
    database := .none, orm := .none, auth := .none, styling := .tailwind
    packageManager := .pnpm, runtime := .node
    extras := ["typescript", "eslint"] }

/-- CLI options asking for elysia with npm explicitly selected. -/
def optsElysiaNpm : PromptOptions :=
  { projectName := some "my-app", framework := some .react
    backend := some .elysia, database := some .mongodb, orm := Option.none
    auth := some .none, styling := some .tailwind
    packageManager := some .npm, runtime := Option.none }

/-- CLI options asking for express with mongodb and the ORM left unset. -/
def optsMongoExpress : PromptOptions :=
  { projectName := some "my-app", framework := some .react
    backend := some .express, database := some .mongodb, orm := Option.none
    auth := some .none, styling := some .tailwind
    packageManager := some .pnpm, runtime := Option.none }

/-- CLI options for scenario 3: next + nextjs-builtin + sqlite, ORM unset. -/
def optsNextSqlite : PromptOptions :=
  { projectName := some "my-app", framework := some .next
    backend := some .nextjsBuiltin, database := some .sqlite, orm := Option.none
    auth := some .none, styling := some .tailwind
    packageManager := some .pnpm, runtime := Option.none }

/-- Interactive answers where the ORM prompt would pick drizzle. -/
def ansDrizzle : PromptAnswers :=
  { ansDefault with orm := .drizzle }

/-- C3: for every backend in the Bun-only (mandates-package-manager) set and
every user-supplied package-manager selection, the resolved configuration
uses bun (the selection is ignored) and exactly one package-manager-override
notice is emitted. -/
theorem bunOnly_forces_packageManager (opts : PromptOptions) (ans : PromptAnswers)
    (bunInstalled : Bool) (b : BackendFramework) (pm : PackageManager)
    (hb : opts.backend = some b) (hmand : b ∈ BUN_ONLY_BACKENDS)
    (_hpm : opts.packageManager = some pm) :
    (runPrompts opts ans bunInstalled).config.packageManager = PackageManager.bun ∧
    (runPrompts opts ans bunInstalled).notices.countP isPmOverrideNotice = 1 := by
  have hbe : b = BackendFramework.elysia := by
    simpa [BUN_ONLY_BACKENDS] using hmand
  subst hbe
  have hrb : resolveBackend opts ans = BackendFramework.elysia := by
    simp [resolveBackend, hb]
  have hforced : forcedPackageManager opts ans = some PackageManager.bun := by
    simp [forcedPackageManager, hrb, BUN_ONLY_BACKENDS]
  refine ⟨?_, ?_⟩
  · simp [runPrompts, resolvePackageManager, hforced]
  · simp [runPrompts, List.countP_append, countP_pmOverride_bunNotices,
      countP_pmOverride_dbOrmNotices, pmNotices, hforced, isPmOverrideNotice]

/-- Witness for C3: elysia requested together with npm still resolves to bun
with a single override notice. -/
theorem bunOnly_forces_packageManager_witness :
    optsElysiaNpm.backend = some BackendFramework.elysia ∧
    BackendFramework.elysia ∈ BUN_ONLY_BACKENDS ∧
    optsElysiaNpm.packageManager = some PackageManager.npm ∧
    ((runPrompts optsElysiaNpm ansDefault true).config.packageManager
        = PackageManager.bun ∧
     (runPrompts optsElysiaNpm ansDefault true).notices.countP isPmOverrideNotice = 1) :=
  ⟨rfl, by decide, rfl,
    bunOnly_forces_packageManager optsElysiaNpm ansDefault true
      BackendFramework.elysia PackageManager.npm rfl (by decide) rfl⟩

/-- C4: for every database whose ORM allow-list has exactly one non-"none"
member, resolution with the ORM unset auto-assigns that single ORM, fires no
ORM prompt, and emits the informational notice naming it. -/
theorem single_orm_auto (opts : PromptOptions) (ans : PromptAnswers)
    (bunInstalled : Bool) (b : BackendFramework) (db : Database) (o : ORM)
    (hb : opts.backend = some b) (hskip : b ∉ SKIP_DB_BACKENDS)
    (hdb : opts.database = some db) (_horm : opts.orm = Option.none)
    (hone : (DATABASE_ORM_COMPAT db).filter (fun x => x != ORM.none) = [o]) :
    (runPrompts opts ans bunInstalled).config.orm = o ∧
    PromptTag.orm ∉ (runPrompts opts ans bunInstalled).prompts ∧
    Notice.ormAuto o db ∈ (runPrompts opts ans bunInstalled).notices := by
  have hrb : resolveBackend opts ans = b := by simp [resolveBackend, hb]
  cases db <;> simp [DATABASE_ORM_COMPAT] at hone
  case mongodb =>
    subst hone
    refine ⟨?_, ?_, ?_⟩
    · simp [runPrompts, resolveORM, hrb, hskip, hdb, DATABASE_ORM_COMPAT]
    · simp [runPrompts, promptTags, List.mem_append, mem_ite_singleton, hrb,
        hskip, hdb, DATABASE_ORM_COMPAT]
    · simp [runPrompts, List.mem_append, dbOrmNotices, hrb, hskip, hdb,
        DATABASE_ORM_COMPAT]

/-- Witness for C4: express + mongodb with the ORM unset auto-selects
prisma. -/
theorem single_orm_auto_witness :
    optsMongoExpress.backend = some BackendFramework.express ∧
    BackendFramework.express ∉ SKIP_DB_BACKENDS ∧
    optsMongoExpress.database = some Database.mongodb ∧
    optsMongoExpress.orm = Option.none ∧
    (DATABASE_ORM_COMPAT Database.mongodb).filter (fun x => x != ORM.none)
      = [ORM.prisma] ∧
    ((runPrompts optsMongoExpress ansDefault true).config.orm = ORM.prisma ∧
     PromptTag.orm ∉ (runPrompts optsMongoExpress ansDefault true).prompts ∧
     Notice.ormAuto ORM.prisma Database.mongodb
       ∈ (runPrompts optsMongoExpress ansDefault true).notices) :=
  ⟨rfl, by decide, rfl, rfl, by decide,
    single_orm_auto optsMongoExpress ansDefault true
      BackendFramework.express Database.mongodb ORM.prisma
      rfl (by decide) rfl rfl (by decide)⟩

/-- C5 counterexample: with {framework: next, backend: nextjs-builtin,
database: sqlite} and the ORM unset, the ORM prompt fires and the prompted
answer (here drizzle) is used — sqlite has two compatible non-"none" ORMs,
so no automatic assignment happens. -/
theorem nextjs_sqlite_counterexample :
    PromptTag.orm ∈ (runPrompts optsNextSqlite ansDrizzle true).prompts ∧
    (runPrompts optsNextSqlite ansDrizzle true).config.orm = ORM.drizzle ∧
    ((DATABASE_ORM_COMPAT Database.sqlite).filter (fun x => x != ORM.none)).length
      = 2 := by
  decide

/-- C5 (amended): for the selection {framework: next, backend:
nextjs-builtin, database: sqlite} with the ORM unset, the ORM is resolved by
prompting (sqlite has two compatible non-"none" ORMs, so it is not
auto-assigned); the layout classifies as integrated; and the merged
single-package manifest's dependencies contain every key the backend
generator declared, the backend value taking precedence over any same-named
frontend dependency. -/
theorem nextjs_sqlite_integrated_merge (opts : PromptOptions) (ans : PromptAnswers)
    (bunInstalled : Bool)
    (_hf : opts.framework = some Framework.next)
    (hb : opts.backend = some BackendFramework.nextjsBuiltin)
    (hdb : opts.database = some Database.sqlite)
    (horm : opts.orm = Option.none) :
    (runPrompts opts ans bunInstalled).config.orm = ans.orm ∧
    PromptTag.orm ∈ (runPrompts opts ans bunInstalled).prompts ∧
    classify (runPrompts opts ans bunInstalled).config.backend
      = LayoutDecision.integrated ∧
    (∀ (fm : Manifest) (k v : String),
      lookupKey k (nextjsApiDependencies (runPrompts opts ans bunInstalled).config)
        = some v →
      lookupKey k (mergeBackendIntoManifest fm
          (nextjsApiDependencies (runPrompts opts ans bunInstalled).config)
          (nextjsApiDevDependencies (runPrompts opts ans bunInstalled).config)
          (nextjsApiScripts (runPrompts opts ans bunInstalled).config)).dependencies
        = some v) := by
  have hrb : resolveBackend opts ans = BackendFramework.nextjsBuiltin := by
    simp [resolveBackend, hb]
  refine ⟨?_, ?_, ?_, ?_⟩
  · simp [runPrompts, resolveORM, hrb, hdb, horm, SKIP_DB_BACKENDS,
      DATABASE_ORM_COMPAT]
  · simp [runPrompts, promptTags, List.mem_append, mem_ite_singleton, hrb, hdb,
      horm, SKIP_DB_BACKENDS, DATABASE_ORM_COMPAT]
  · simp [runPrompts, hrb, classify, requiresSeparatePackage,
      integratesWithFrontend]
  · intro fm k v h
    exact lookupKey_mergeRecords_of_backend fm.dependencies _ k v h

/-- Frontend manifest with a clashing `zod` entry, to exercise backend
precedence in the C5 witness. -/
def fmNextFrontend : Manifest :=
  { name := "my-app", version := "0.1.0", scripts := []
    dependencies := [("zod", "^0.0.1"), ("react", "^18.0.0")]
    devDependencies := [] }

/-- Witness for the amended C5 at the concrete scenario-3 selection: the
prompted drizzle answer is used, the orm prompt fired, the layout is
integrated, and the backend `zod` pin overrides the frontend one. -/
theorem nextjs_sqlite_integrated_merge_witness :
    (runPrompts optsNextSqlite ansDrizzle true).config.orm = ansDrizzle.orm ∧
    PromptTag.orm ∈ (runPrompts optsNextSqlite ansDrizzle true).prompts ∧
    classify (runPrompts optsNextSqlite ansDrizzle true).config.backend
      = LayoutDecision.integrated ∧
    lookupKey "zod" (mergeBackendIntoManifest fmNextFrontend
        (nextjsApiDependencies (runPrompts optsNextSqlite ansDrizzle true).config)
        (nextjsApiDevDependencies (runPrompts optsNextSqlite ansDrizzle true).config)
        (nextjsApiScripts (runPrompts optsNextSqlite ansDrizzle true).config)).dependencies
      = some "^3.23.0" := by
  obtain ⟨h1, h2, h3, h4⟩ :=
    nextjs_sqlite_integrated_merge optsNextSqlite ansDrizzle true rfl rfl rfl rfl
  exact ⟨h1, h2, h3, h4 fmNextFrontend "zod" "^3.23.0" (by decide)⟩

end MrnStack
